import Mathlib

deriving instance DecidableEq for Except

/-!
Verification of the HCS bench power-supply driver (src/hcs/device.py)
against its natural-language specification.

Modelling conventions:
* Python `bytes` values on this ASCII protocol are modelled as `String`.
* Python `float` is modelled as `ℚ`; every numeric literal in the source
  (0.8, 0.1, 1e3, ...) is exactly representable, and the arithmetic the
  driver performs on them is exact in IEEE double as well.
* A Python exception is an `Err` value; a method that can raise returns
  `Except Err α`.
* Serial I/O: each public operation performs at most one write followed by
  one `read_until`.  A method is modelled as a function of the raw bytes
  that `read_until` would return, and it also returns the list of byte
  strings written to the port (empty when it raises before writing).
-/

/-- Python exceptions raised by the driver, by site. -/
inductive Err where
  /-- NameError: in set_output the transmitted expression names `value`,
  which is never defined (the assignment wrote `pvalue`). -/
  | nameError
  /-- TypeError: subscripting a float, as in `DEVICE_LIMITS["U"][0]`. -/
  | typeError
  /-- NotImplementedError: decimal table or device limit left unset on the
  generic `HCS` base class. -/
  | notImplementedError
  /-- AssertionError "Invalid range! ...V > limit of ...V" in set_voltage /
  set_current. -/
  | assertOverLimit
  /-- AssertionError "Negative voltage given" / "Negative current given". -/
  | assertNegative
  /-- AssertionError "Voltage limit > device maximum" in `__init__`. -/
  | assertVoltLimit
  /-- AssertionError "Current limit > device maximum" in `__init__`. -/
  | assertCurrLimit
  /-- Exception "Command ... did not receive ACK" in `_execute`. -/
  | noAck
  /-- ValueError: `float()` applied to non-numeric bytes. -/
  | valueError
  /-- IndexError: `result[-1]` on empty bytes. -/
  | indexError
deriving DecidableEq, Repr

/-- Bytes on the wire (ASCII). -/
abbrev Bytes := String

/-- `HCS.CR`, the command terminator. -/
def CR : Bytes := "\r"

/-- `HCS.ACK`, the acknowledgement marker. -/
def ACK : Bytes := "OK"

def cmdGMAX : Bytes := "GMAX"

def cmdGETS : Bytes := "GETS"

def cmdGETD : Bytes := "GETD"

def cmdVOLT : Bytes := "VOLT"

def cmdCURR : Bytes := "CURR"

def cmdSOUT : Bytes := "SOUT"

/-- The byte `b"0"` used by set_output. -/
def zeroByte : Bytes := "0"

/-- The byte `b"1"` used by set_output and the CC-flag comparison. -/
def oneByte : Bytes := "1"

/-- Per-quantity decimal counts: `SET_DECIMALS` / `DISPLAY_DECIMALS`
dictionaries with keys "U" and "I"; `none` models Python `None`. -/
structure Decimals where
  U : Option Nat
  I : Option Nat
deriving DecidableEq, Repr

/-- The class-level constants of an `HCS` (sub)class.  `DEVICE_LIMITS`
stores per-quantity floats (or `None` on the base class). -/
structure DeviceClass where
  SET_DECIMALS : Decimals
  DISPLAY_DECIMALS : Decimals
  DEVICE_LIMITS_U : Option ℚ
  DEVICE_LIMITS_I : Option ℚ
deriving DecidableEq, Repr

/-- The generic base class `HCS`: every table entry is `None`. -/
def HCSbase : DeviceClass :=
  { SET_DECIMALS := ⟨none, none⟩
    DISPLAY_DECIMALS := ⟨none, none⟩
    DEVICE_LIMITS_U := none
    DEVICE_LIMITS_I := none }

/-- The concrete model `HCS3202`: set decimals U=1, I=1; display decimals
U=2, I=2; device floor 0.8 V and 0.1 A. -/
def HCS3202 : DeviceClass :=
  { SET_DECIMALS := ⟨some 1, some 1⟩
    DISPLAY_DECIMALS := ⟨some 2, some 2⟩
    DEVICE_LIMITS_U := some (8/10)
    DEVICE_LIMITS_I := some (1/10) }

/-- Instance state of a connected session: the class constants plus the
fields `__init__` assigns (`limit_voltage`, `limit_current`,
`max_voltage`, `max_current`). -/
structure HCSState where
  cls : DeviceClass
  limit_voltage : ℚ
  limit_current : ℚ
  max_voltage : ℚ
  max_current : ℚ
deriving DecidableEq, Repr

/-- Python `s.rstrip(chars)`: remove every trailing character that occurs
anywhere in `chars` (a character set, not a suffix). -/
def pyRstrip (s chars : Bytes) : Bytes :=
  String.mk ((s.data.reverse.dropWhile (fun c => chars.data.contains c)).reverse)

/-- Python `s[::-1]`. -/
def pyReverse (s : Bytes) : Bytes :=
  String.mk s.data.reverse

/-- Python `s[-1]` on bytes: the last byte as an int; IndexError on empty. -/
def pyLastByte (s : Bytes) : Except Err Nat :=
  match s.data.getLast? with
  | some c => .ok c.toNat
  | none => .error .indexError

/-- A Python value, as far as the driver compares them: ints and bytes. -/
inductive Py where
  | int (n : Nat)
  | bytes (s : Bytes)
deriving DecidableEq, Repr

/-- Python `==`: values of different types (an int and a bytes object)
compare unequal rather than raising. -/
def pyEq : Py → Py → Bool
  | .int a, .int b => a = b
  | .bytes a, .bytes b => a = b
  | _, _ => false

/-- Numeric value of a digit string (leading zeros allowed). -/
def digitsVal (s : Bytes) : Nat :=
  s.data.foldl (fun acc c => 10 * acc + (c.toNat - 48)) 0

/-- Python `float(bytes)` restricted to the driver's payloads: parses a
non-empty all-digit string; anything else raises ValueError.  (Full Python
`float` also accepts signs, dots and exponents; the device responses the
driver slices are plain digit fields.) -/
def pyFloat (s : Bytes) : Except Err ℚ :=
  if s.data ≠ [] ∧ s.data.all Char.isDigit then .ok (digitsVal s : ℚ)
  else .error .valueError

/-- Banker's rounding of Python `round`: nearest integer, ties to even. -/
def pyRound (x : ℚ) : Int :=
  let n := x.floor
  let frac := x - (n : ℚ)
  if frac < 1/2 then n
  else if 1/2 < frac then n + 1
  else if n % 2 = 0 then n else n + 1

/-- Zero-pad a string on the left to a MINIMUM width `w`; a longer string
is returned unchanged. -/
def zfill (s : Bytes) (w : Nat) : Bytes :=
  if w ≤ s.length then s
  else String.mk (List.replicate (w - s.length) '0') ++ s

/-- The Python format spec `0Nd` (as in the `"{:0{}d}".format(n, w)` calls
of set_voltage / set_current): decimal digits of `n`, zero-padded to a
minimum width `w`.  A number needing more digits is emitted in full; this
format never raises and never truncates. -/
def pyFormat0d (n : Int) (w : Nat) : Bytes :=
  zfill (toString n) w

/-- `HCS._write(cmd)`: puts `cmd + CR` on the wire. -/
def wireBytes (cmd : Bytes) : Bytes := cmd ++ CR

namespace HCS

/-- `HCS._read`, given the raw bytes `read_until(b"OK\r")` returned: empty
means no acknowledgement (False); any non-empty result is reported as a
success, with trailing characters from the set of `ACK + CR` stripped. -/
def read (raw : Bytes) : Bool × Bytes :=
  if raw = "" then (false, "")
  else (true, pyRstrip raw (ACK ++ CR))

/-- `HCS._execute(cmd)`: write `cmd + CR`, read, raise on a failed read.
Returns the bytes written together with the outcome. -/
def execute (cmd raw : Bytes) : List Bytes × Except Err Bytes :=
  ([wireBytes cmd],
    match read raw with
    | (true, answer) => .ok answer
    | (false, _) => .error .noAck)

/-- `HCS._parse_result(result, decimals)`: voltage is
`float(result[0:(2 + decimals["U"])]) / 10 ** decimals["U"]`, current is
`float(result[(2 + decimals["I"]):]) / 10 ** decimals["I"]`.  Note the
current slice starts at `2 + decimals["I"]`, exactly as in the source.
Unset decimals raise NotImplementedError. -/
def parse_result (result : Bytes) (decimals : Decimals) : Except Err (ℚ × ℚ) :=
  match decimals.U, decimals.I with
  | some dU, some dI =>
    match pyFloat (result.take (2 + dU)), pyFloat (result.drop (2 + dI)) with
    | .ok v, .ok c => .ok (v / 10 ^ dU, c / 10 ^ dI)
    | .error e, _ => .error e
    | .ok _, .error e => .error e
  | _, _ => .error .notImplementedError

/-- Python subscript applied to a float object: always a TypeError. -/
def floatGetItem (_v : ℚ) (_i : Nat) : Except Err ℚ :=
  .error .typeError

/-- `HCS.min_voltage`: `DEVICE_LIMITS["U"][0]`.  On the base class the
entry is `None` (NotImplementedError); on a concrete class the entry is a
float, and the `[0]` subscript raises TypeError. -/
def min_voltage (cls : DeviceClass) : Except Err ℚ :=
  match cls.DEVICE_LIMITS_U with
  | none => .error .notImplementedError
  | some v => floatGetItem v 0

/-- `HCS.min_current`: `DEVICE_LIMITS["I"]`, no subscript. -/
def min_current (cls : DeviceClass) : Except Err ℚ :=
  match cls.DEVICE_LIMITS_I with
  | none => .error .notImplementedError
  | some v => .ok v

/-- `HCS.get_max`: execute GMAX and parse with `SET_DECIMALS`. -/
def get_max (cls : DeviceClass) (raw : Bytes) : List Bytes × Except Err (ℚ × ℚ) :=
  let p := execute cmdGMAX raw
  (p.1,
    match p.2 with
    | .ok answer => parse_result answer cls.SET_DECIMALS
    | .error e => .error e)

/-- `HCS.get_preset`: execute GETS and parse with `SET_DECIMALS`. -/
def get_preset (cls : DeviceClass) (raw : Bytes) : List Bytes × Except Err (ℚ × ℚ) :=
  let p := execute cmdGETS raw
  (p.1,
    match p.2 with
    | .ok answer => parse_result answer cls.SET_DECIMALS
    | .error e => .error e)

/-- `HCS.get_display`: execute GETD; `cc = True if result[-1] == b"1"`
compares the int `result[-1]` with the bytes `b"1"`; the payload is
reversed (`result[::-1]`) before parsing with `DISPLAY_DECIMALS`. -/
def get_display (cls : DeviceClass) (raw : Bytes) :
    List Bytes × Except Err (ℚ × ℚ × Bool) :=
  let p := execute cmdGETD raw
  (p.1,
    match p.2 with
    | .error e => .error e
    | .ok result =>
      match pyLastByte result with
      | .error e => .error e
      | .ok last =>
        let cc := pyEq (.int last) (.bytes oneByte)
        match parse_result (pyReverse result) cls.DISPLAY_DECIMALS with
        | .error e => .error e
        | .ok vc => .ok (vc.1, vc.2, cc))

/-- `HCS.set_output(on)`: assigns `pvalue = b"0" if on else b"1"` but then
executes `b"SOUT" + value`, and the name `value` is undefined, so Python
raises NameError before anything reaches the wire. -/
def set_output (onFlag : Bool) : List Bytes × Except Err Bool :=
  let _pvalue : Bytes := if onFlag then zeroByte else oneByte
  ([], .error .nameError)

/-- `HCS.set_voltage(voltage)`: assert `voltage <= limit_voltage`, assert
`voltage > 0`, clamp below `min_voltage`, encode with `SET_DECIMALS["U"]`
and execute `VOLT` + payload. -/
def set_voltage (s : HCSState) (voltage : ℚ) (raw : Bytes) :
    List Bytes × Except Err Bool :=
  if ¬ (voltage ≤ s.limit_voltage) then ([], .error .assertOverLimit)
  else if ¬ (voltage > 0) then ([], .error .assertNegative)
  else
    match min_voltage s.cls with
    | .error e => ([], .error e)
    | .ok minv =>
      let voltage := if voltage < minv then minv else voltage
      match s.cls.SET_DECIMALS.U with
      | none => ([], .error .typeError)
      | some d =>
        let voltage_bytes := pyFormat0d (pyRound (voltage * (10:ℚ) ^ d)) (d + 2)
        let p := execute (cmdVOLT ++ voltage_bytes) raw
        (p.1, p.2.map (fun _ => true))

/-- `HCS.set_current(current)`: same policy, mirrored for current, with
`min_current` and `SET_DECIMALS["I"]`, executing `CURR` + payload. -/
def set_current (s : HCSState) (current : ℚ) (raw : Bytes) :
    List Bytes × Except Err Bool :=
  if ¬ (current ≤ s.limit_current) then ([], .error .assertOverLimit)
  else if ¬ (current > 0) then ([], .error .assertNegative)
  else
    match min_current s.cls with
    | .error e => ([], .error e)
    | .ok minc =>
      let current := if current < minc then minc else current
      match s.cls.SET_DECIMALS.I with
      | none => ([], .error .typeError)
      | some d =>
        let current_bytes := pyFormat0d (pyRound (current * (10:ℚ) ^ d)) (d + 2)
        let p := execute (cmdCURR ++ current_bytes) raw
        (p.1, p.2.map (fun _ => true))

/-- `HCS.__init__(port, limit_voltage, limit_current, blind)`: queries
`get_max` unless blind (then the sentinel `1e3, 1e3`), defaults omitted
soft limits to the maxima, then asserts
`limit_voltage <= max_voltage` and — verbatim from the source —
`limit_current <= max_voltage`. -/
def init (cls : DeviceClass) (limit_voltage limit_current : Option ℚ)
    (blind : Bool) (raw : Bytes) : List Bytes × Except Err HCSState :=
  let step : List Bytes × Except Err (ℚ × ℚ) :=
    if blind then ([], .ok (1000, 1000))
    else get_max cls raw
  (step.1,
    match step.2 with
    | .error e => .error e
    | .ok mx =>
      let lv := limit_voltage.getD mx.1
      let lc := limit_current.getD mx.2
      if ¬ (lv ≤ mx.1) then .error .assertVoltLimit
      else if ¬ (lc ≤ mx.1) then .error .assertCurrLimit
      else .ok ⟨cls, lv, lc, mx.1, mx.2⟩)

end HCS

/-- One public operation of a connected session. -/
inductive Op where
  | opGetMax
  | opGetPreset
  | opGetDisplay
  | opSetVoltage (v : ℚ)
  | opSetCurrent (v : ℚ)
  | opSetOutput (onFlag : Bool)
deriving DecidableEq, Repr

/-- Result of a public operation. -/
inductive OpResult where
  | pair (u i : ℚ)
  | display (u i : ℚ) (cc : Bool)
  | flag (b : Bool)
deriving DecidableEq, Repr

/-- Run one public operation on a session.  The post state is carried
alongside: none of the source methods assigns to `self.limit_voltage`,
`self.limit_current`, `self.max_voltage` or `self.max_current`, so the
post state is the record the method body leaves untouched. -/
def HCS.run (s : HCSState) (op : Op) (raw : Bytes) :
    HCSState × List Bytes × Except Err OpResult :=
  match op with
  | .opGetMax =>
    let p := HCS.get_max s.cls raw
    (s, p.1, p.2.map (fun q => .pair q.1 q.2))
  | .opGetPreset =>
    let p := HCS.get_preset s.cls raw
    (s, p.1, p.2.map (fun q => .pair q.1 q.2))
  | .opGetDisplay =>
    let p := HCS.get_display s.cls raw
    (s, p.1, p.2.map (fun q => .display q.1 q.2.1 q.2.2))
  | .opSetVoltage v =>
    let p := HCS.set_voltage s v raw
    (s, p.1, p.2.map .flag)
  | .opSetCurrent v =>
    let p := HCS.set_current s v raw
    (s, p.1, p.2.map .flag)
  | .opSetOutput b =>
    let p := HCS.set_output b
    (s, p.1, p.2.map .flag)

/-! Concrete inputs used by the theorems below. -/

/-- A well-acknowledged empty-payload response. -/
def rawOK : Bytes := "OK\r"

/-- An empty transport read (timeout with nothing received). -/
def rawEmpty : Bytes := ""

/-- A non-empty transport read that does NOT end with the acknowledgement
marker. -/
def raw123 : Bytes := "123"

/-- A GMAX response encoding 33.0 V and 2.0 A under set decimals U=1, I=1. -/
def rawGMAX33 : Bytes := "330020OK\r"

/-- A GETD response whose final payload byte is the character `1`
(constant-current mode active, per the protocol). -/
def rawGETD1 : Bytes := "0120034501OK\r"

/-- A four-byte payload for slicing under decimals U=0, I=1. -/
def p1234 : Bytes := "1234"

/-- A decimal spec whose two counts differ. -/
def spec01 : Decimals := ⟨some 0, some 1⟩

/-- The CURR command carrying a 4-digit payload in the 3-digit field. -/
def wideCURR : Bytes := "CURR9990\r"

/-- An HCS3202 session with max ratings 33 V / 2 A and soft limits equal
to them. -/
def s3202 : HCSState := ⟨HCS3202, 33, 2, 33, 2⟩

/-- An HCS3202 session connected blind: sentinel maxima and limits 1000. -/
def sBlind : HCSState := ⟨HCS3202, 1000, 1000, 1000, 1000⟩

/-- A blind HCS3202 session configured with the negative voltage soft
limit -2 (accepted by `__init__` since -2 ≤ 1000). -/
def sNegLimit : HCSState := ⟨HCS3202, -2, 1000, 1000, 1000⟩

/-- Claim C1: `setOutput(on)` is claimed to transmit SOUT with a
model-specific polarity byte and return success for both booleans.  In the
code the transmitted expression references the name `value`, which is
never assigned (the polarity byte was bound to `pvalue`), so both calls
raise NameError and nothing is ever written to the transport. -/
theorem C1_set_output_raises :
    HCS.set_output true = ([], .error .nameError) ∧
    HCS.set_output false = ([], .error .nameError) :=
  ⟨rfl, rfl⟩

/-- Claim C2: `setVoltage(0.5)` on the HCS3202 is claimed to clamp up to
the 0.8 V device minimum and transmit `VOLT008` + CR.  In the code the
clamp comparison evaluates `min_voltage`, which subscripts the float
`DEVICE_LIMITS["U"]` with `[0]`, so the call raises TypeError instead and
nothing is written. -/
theorem C2_min_clamp_crashes :
    HCS.set_voltage s3202 (1/2) rawOK = ([], .error .typeError) := by
  norm_num [HCS.set_voltage, s3202, HCS.min_voltage, HCS3202, HCS.floatGetItem]

/-- Claim C3: connect-time validation is claimed to reject a current soft
limit above the device's maximum current.  With device maxima 33 V / 2 A
(GMAX response `330020OK` + CR) and `limit_current = 5`, `__init__`
succeeds, because its second assertion compares the current limit against
`max_voltage` (33) instead of `max_current` (2). -/
theorem C3_current_limit_unvalidated :
    (HCS.init HCS3202 none (some 5) false rawGMAX33).2 =
      .ok ⟨HCS3202, 33, 5, 33, 2⟩ ∧ ¬ ((5:ℚ) ≤ 2) := by
  constructor
  · have e0 : HCS.execute cmdGMAX rawGMAX33 = ([wireBytes cmdGMAX], .ok "330020") := by
      decide
    have e1 : HCS.get_max HCS3202 rawGMAX33 =
        ([wireBytes cmdGMAX], HCS.parse_result "330020" HCS3202.SET_DECIMALS) := by
      unfold HCS.get_max
      rw [e0]
    have e2 : HCS.parse_result "330020" HCS3202.SET_DECIMALS = .ok (33, 2) := by
      have q1 : ("330020" : Bytes).take 3 = "330" := by decide
      have q2 : ("330020" : Bytes).drop 3 = "020" := by decide
      have pf1 : pyFloat "330" = .ok ((330:ℕ) : ℚ) := by decide
      have pf2 : pyFloat "020" = .ok ((20:ℕ) : ℚ) := by decide
      simp only [HCS.parse_result, HCS3202]
      norm_num [q1, q2, pf1, pf2]
    unfold HCS.init
    norm_num [e1, e2]
  · norm_num

/-- Claim C4, counterexample: the claim says every `value ≤ 0` fails with
the negative/zero range error.  On a session whose (accepted) voltage soft
limit is -2, `set_voltage(-1)` trips the over-limit assertion instead,
because the limit check runs first.  The session is exhibited as the
result of a blind `__init__` with `limit_voltage = -2`. -/
theorem C4_counterexample :
    (HCS.init HCS3202 (some (-2)) none true rawEmpty).2 = .ok sNegLimit ∧
    HCS.set_voltage sNegLimit (-1) rawEmpty = ([], .error .assertOverLimit) := by
  constructor
  · unfold HCS.init
    norm_num [sNegLimit]
  · unfold HCS.set_voltage
    simp only [sNegLimit]
    rw [if_pos (by norm_num : ¬ ((-1:ℚ) ≤ -2))]

/-- Claim C4 as amended: the over-limit assertion is checked first, so
`value > limit` raises the over-limit range error; a non-positive value
that also satisfies `value ≤ limit` raises the negative-value range error;
likewise for `set_current`; in all four cases nothing is written to the
transport (the writes component is empty). -/
theorem C4_range_checks (s : HCSState) (v : ℚ) (raw : Bytes) :
    (s.limit_voltage < v →
      HCS.set_voltage s v raw = ([], .error .assertOverLimit)) ∧
    (v ≤ 0 → v ≤ s.limit_voltage →
      HCS.set_voltage s v raw = ([], .error .assertNegative)) ∧
    (s.limit_current < v →
      HCS.set_current s v raw = ([], .error .assertOverLimit)) ∧
    (v ≤ 0 → v ≤ s.limit_current →
      HCS.set_current s v raw = ([], .error .assertNegative)) := by
  refine ⟨fun h => ?_, fun h1 h2 => ?_, fun h => ?_, fun h1 h2 => ?_⟩
  · unfold HCS.set_voltage
    rw [if_pos (not_le.mpr h)]
  · unfold HCS.set_voltage
    rw [if_neg (not_not_intro h2), if_pos (not_lt.mpr h1)]
  · unfold HCS.set_current
    rw [if_pos (not_le.mpr h)]
  · unfold HCS.set_current
    rw [if_neg (not_not_intro h2), if_pos (not_lt.mpr h1)]

/-- Witness for C4_range_checks at the session `sBlind` (limits 1000),
with the over-limit value 2000 and the negative value -1. -/
theorem C4_range_checks_witness :
    (sBlind.limit_voltage < (2000:ℚ) ∧
      HCS.set_voltage sBlind 2000 rawEmpty = ([], .error .assertOverLimit)) ∧
    ((-1:ℚ) ≤ 0 ∧ (-1:ℚ) ≤ sBlind.limit_voltage ∧
      HCS.set_voltage sBlind (-1) rawEmpty = ([], .error .assertNegative)) ∧
    (sBlind.limit_current < (2000:ℚ) ∧
      HCS.set_current sBlind 2000 rawEmpty = ([], .error .assertOverLimit)) ∧
    ((-1:ℚ) ≤ 0 ∧ (-1:ℚ) ≤ sBlind.limit_current ∧
      HCS.set_current sBlind (-1) rawEmpty = ([], .error .assertNegative)) :=
  ⟨⟨by decide, (C4_range_checks sBlind 2000 rawEmpty).1 (by decide)⟩,
   ⟨by decide, by decide, (C4_range_checks sBlind (-1) rawEmpty).2.1 (by decide) (by decide)⟩,
   ⟨by decide, (C4_range_checks sBlind 2000 rawEmpty).2.2.1 (by decide)⟩,
   ⟨by decide, by decide, (C4_range_checks sBlind (-1) rawEmpty).2.2.2 (by decide) (by decide)⟩⟩

/-- Claim C5: `getDisplay` is claimed to report constant-current mode true
exactly when the final payload byte is the character `1`.  On a response
whose final payload byte IS that character (code point 49), the code still
reports `false`: it compares the int `result[-1]` with the bytes object
`b"1"`, and values of different types are never equal in Python. -/
theorem C5_cc_flag_false :
    (HCS.get_display HCS3202 rawGETD1).2 =
      .ok (527/50, 30021/10, false) := by
  have e0 : HCS.execute cmdGETD rawGETD1 = ([wireBytes cmdGETD], .ok "0120034501") := by
    decide
  have el : pyLastByte "0120034501" = .ok 49 := by decide
  have epy : pyEq (.int 49) (.bytes oneByte) = false := by decide
  have erev : pyReverse "0120034501" = "1054300210" := by decide
  have epr : HCS.parse_result "1054300210" HCS3202.DISPLAY_DECIMALS =
      .ok (527/50, 30021/10) := by
    have q1 : ("1054300210" : Bytes).take 4 = "1054" := by decide
    have q2 : ("1054300210" : Bytes).drop 4 = "300210" := by decide
    have pf1 : pyFloat "1054" = .ok ((1054:ℕ) : ℚ) := by decide
    have pf2 : pyFloat "300210" = .ok ((300210:ℕ) : ℚ) := by decide
    simp only [HCS.parse_result, HCS3202]
    norm_num [q1, q2, pf1, pf2]
  unfold HCS.get_display
  simp only [e0, el, erev, epr, epy]

/-- Claim C6, counterexample: a current of 999 A on a blind session scales
to 9990, which needs four digits in the three-digit wire field, yet
`set_current` transmits `CURR9990` + CR and returns success — no
encoding-range error exists, and the field simply widens. -/
theorem C6_counterexample :
    HCS.set_current sBlind 999 rawOK = ([wideCURR], .ok true) ∧
    (pyFormat0d (pyRound ((999:ℚ) * (10:ℚ) ^ (1:ℕ))) (1 + 2)).length = 4 := by
  have hval : ((999:ℚ) * (10:ℚ) ^ (1:ℕ)) = 9990 := by norm_num
  have hr : pyRound ((999:ℚ) * (10:ℚ) ^ (1:ℕ)) = 9990 := by
    rw [hval]
    have hf : Rat.floor (9990:ℚ) = 9990 := by decide
    unfold pyRound
    norm_num [hf]
  have hfmt : pyFormat0d 9990 3 = "9990" := by decide
  have hex : HCS.execute (cmdCURR ++ "9990") rawOK = ([wideCURR], .ok "") := by decide
  constructor
  · unfold HCS.set_current
    simp only [sBlind]
    rw [if_neg (not_not_intro (by norm_num : (999:ℚ) ≤ 1000)),
        if_neg (not_not_intro (by norm_num : (999:ℚ) > 0))]
    simp only [HCS.min_current, HCS3202]
    rw [if_neg (by norm_num : ¬ ((999:ℚ) < 1/10))]
    simp only [hr, hfmt, hex]
    rfl
  · rw [hr, hfmt]
    decide

/-- Claim C6 as amended: the encoder zero-pads only to a MINIMUM width of
`decimals + 2`; for any in-range current on an HCS3202 session the command
is transmitted with payload `pyFormat0d (round (value * 10)) 3` and
returns success, and whenever the digit string is at least the field
width, `zfill` returns it unchanged — an oversized scaled value is
transmitted in a wider field, never rejected and never truncated. -/
theorem C6_wide_field (lv lc mv mc : ℚ) (c : ℚ)
    (h1 : c ≤ lc) (h2 : 0 < c) (h3 : 1/10 ≤ c) :
    HCS.set_current ⟨HCS3202, lv, lc, mv, mc⟩ c rawOK =
      ([wireBytes (cmdCURR ++ pyFormat0d (pyRound (c * (10:ℚ) ^ (1:ℕ))) (1 + 2))],
        .ok true) ∧
    (∀ t : Bytes, ∀ w : Nat, w ≤ t.length → zfill t w = t) := by
  constructor
  · unfold HCS.set_current
    rw [if_neg (not_not_intro h1), if_neg (not_not_intro h2)]
    simp only [HCS.min_current, HCS3202]
    rw [if_neg (not_lt.mpr h3)]
    have hread : HCS.read rawOK = (true, "") := by decide
    simp only [HCS.execute, hread, wireBytes]
    rfl
  · intro t w hw
    unfold zfill
    rw [if_pos hw]

/-- Witness for C6_wide_field at limits 1000 and current 999. -/
theorem C6_wide_field_witness :
    ((999:ℚ) ≤ 1000 ∧ (0:ℚ) < 999 ∧ (1:ℚ)/10 ≤ 999) ∧
    HCS.set_current ⟨HCS3202, 1000, 1000, 1000, 1000⟩ 999 rawOK =
      ([wireBytes (cmdCURR ++ pyFormat0d (pyRound ((999:ℚ) * (10:ℚ) ^ (1:ℕ))) (1 + 2))],
        .ok true) :=
  ⟨⟨by decide, by decide, by norm_num⟩,
   (C6_wide_field 1000 1000 1000 1000 999 (by decide) (by decide) (by norm_num)).1⟩

/-- Claim C7, counterexample: a non-empty read result that does not end
with the acknowledgement marker (`"123"`) is claimed to be a protocol
failure; `_execute` accepts it and returns it as the answer. -/
theorem C7_counterexample :
    raw123 ≠ "" ∧ raw123.data.reverse.take 3 ≠ (ACK ++ CR).data.reverse ∧
    HCS.execute cmdGETS raw123 = ([wireBytes cmdGETS], .ok raw123) :=
  ⟨by decide, by decide, by decide⟩

/-- Claim C7 as amended: the exchange is a protocol failure (the
no-acknowledgement error) exactly when the transport read is empty; every
non-empty read is treated as accepted, with the trailing characters drawn
from the marker character set stripped, whether or not the marker was
present. -/
theorem C7_ack_handling (cmd raw : Bytes) :
    (raw = "" → HCS.execute cmd raw = ([wireBytes cmd], .error .noAck)) ∧
    (raw ≠ "" → HCS.execute cmd raw = ([wireBytes cmd], .ok (pyRstrip raw (ACK ++ CR)))) := by
  constructor
  · intro h
    subst h
    rfl
  · intro h
    unfold HCS.execute HCS.read
    rw [if_neg h]

/-- Witness for C7_ack_handling: the empty read rejects a GETS exchange;
the markerless read `"123"` is accepted for a VOLT exchange. -/
theorem C7_ack_handling_witness :
    (rawEmpty = "" ∧
      HCS.execute cmdGETS rawEmpty = ([wireBytes cmdGETS], .error .noAck)) ∧
    (raw123 ≠ "" ∧
      HCS.execute cmdVOLT raw123 = ([wireBytes cmdVOLT], .ok (pyRstrip raw123 (ACK ++ CR)))) :=
  ⟨⟨rfl, (C7_ack_handling cmdGETS rawEmpty).1 rfl⟩,
   ⟨by decide, (C7_ack_handling cmdVOLT raw123).2 (by decide)⟩⟩

/-- Claim C8, counterexample: with decimals U=0, I=1 the claim says the
current field is the ENTIRE remainder after the first 2+0 bytes of
`"1234"`, i.e. `"34"` giving 3.4; the code slices from `2 + decimals["I"]`
= 3, parsing only `"4"` and yielding 0.4. -/
theorem C8_counterexample :
    HCS.parse_result p1234 spec01 = .ok (12, 2/5) ∧ ((2:ℚ)/5 ≠ 34/10) := by
  constructor
  · have q1 : p1234.take 2 = "12" := by decide
    have q2 : p1234.drop 3 = "4" := by decide
    have pf1 : pyFloat "12" = .ok ((12:ℕ) : ℚ) := by decide
    have pf2 : pyFloat "4" = .ok ((4:ℕ) : ℚ) := by decide
    simp only [HCS.parse_result, spec01]
    norm_num [q1, q2, pf1, pf2]
  · norm_num

/-- Claim C8 as amended: with both decimal counts set, the voltage field
is the first `2 + decimals_U` bytes and the current field starts at byte
offset `2 + decimals_I` (the remainder of the payload from that offset;
this coincides with the remainder after the voltage field only when the
two counts are equal); each digit field parses as a decimal integer
divided by `10 ^ decimals`; with either count unset the parse fails with
the unimplemented-configuration error. -/
theorem C8_field_slicing (payload : Bytes) (dU dI : Nat)
    (hU : (payload.take (2 + dU)).data ≠ [] ∧ (payload.take (2 + dU)).data.all Char.isDigit)
    (hI : (payload.drop (2 + dI)).data ≠ [] ∧ (payload.drop (2 + dI)).data.all Char.isDigit) :
    HCS.parse_result payload ⟨some dU, some dI⟩ =
      .ok ((digitsVal (payload.take (2 + dU)) : ℚ) / 10 ^ dU,
        (digitsVal (payload.drop (2 + dI)) : ℚ) / 10 ^ dI) ∧
    (∀ spec : Decimals, spec.U = none ∨ spec.I = none →
      HCS.parse_result payload spec = .error .notImplementedError) := by
  constructor
  · have e1 : pyFloat (payload.take (2 + dU)) = .ok (digitsVal (payload.take (2 + dU)) : ℚ) := by
      unfold pyFloat
      rw [if_pos hU]
    have e2 : pyFloat (payload.drop (2 + dI)) = .ok (digitsVal (payload.drop (2 + dI)) : ℚ) := by
      unfold pyFloat
      rw [if_pos hI]
    simp only [HCS.parse_result, e1, e2]
  · intro spec h
    obtain ⟨u, i⟩ := spec
    rcases h with h | h
    · replace h : u = none := h
      subst h
      cases i <;> rfl
    · replace h : i = none := h
      subst h
      cases u <;> rfl

/-- Witness for C8_field_slicing at payload `"1234"`, decimals U=0, I=1. -/
theorem C8_field_slicing_witness :
    ((p1234.take (2 + 0)).data ≠ [] ∧ (p1234.take (2 + 0)).data.all Char.isDigit) ∧
    ((p1234.drop (2 + 1)).data ≠ [] ∧ (p1234.drop (2 + 1)).data.all Char.isDigit) ∧
    HCS.parse_result p1234 ⟨some 0, some 1⟩ =
      .ok ((digitsVal (p1234.take (2 + 0)) : ℚ) / 10 ^ 0,
        (digitsVal (p1234.drop (2 + 1)) : ℚ) / 10 ^ 1) :=
  ⟨by decide, by decide, (C8_field_slicing p1234 0 1 (by decide) (by decide)).1⟩

/-- Claim C9: a blind connect never writes anything (in particular no GMAX
capability query) and sets both maxima to the 1000 sentinel, with omitted
soft limits defaulting to the maxima; and in non-blind mode, omitted soft
limits likewise default to the queried device maxima in any successfully
constructed session. -/
theorem C9_blind_and_defaults (cls : DeviceClass) (lv lc : Option ℚ) (raw : Bytes)
    (hlv : lv.getD 1000 ≤ 1000) (hlc : lc.getD 1000 ≤ 1000) :
    HCS.init cls lv lc true raw =
      ([], .ok ⟨cls, lv.getD 1000, lc.getD 1000, 1000, 1000⟩) ∧
    (∀ st : HCSState, (HCS.init cls none none false raw).2 = .ok st →
      st.limit_voltage = st.max_voltage ∧ st.limit_current = st.max_current) := by
  constructor
  · unfold HCS.init
    simp only [if_true]
    rw [if_neg (not_not_intro hlv), if_neg (not_not_intro hlc)]
  · intro st h
    unfold HCS.init at h
    simp only [Bool.false_eq_true, if_false] at h
    split at h
    · exact absurd h (by simp)
    · split at h
      · exact absurd h (by simp)
      · split at h
        · exact absurd h (by simp)
        · injection h with h
          subst h
          exact ⟨rfl, rfl⟩

/-- Witness for C9_blind_and_defaults: blind connect of an HCS3202 with
omitted voltage limit and current limit 5. -/
theorem C9_blind_and_defaults_witness :
    ((none : Option ℚ).getD 1000 ≤ 1000 ∧ (some (5:ℚ)).getD 1000 ≤ 1000) ∧
    HCS.init HCS3202 none (some 5) true rawEmpty =
      ([], .ok ⟨HCS3202, (none : Option ℚ).getD 1000, (some (5:ℚ)).getD 1000, 1000, 1000⟩) :=
  ⟨⟨by decide, by decide⟩,
   (C9_blind_and_defaults HCS3202 none (some 5) rawEmpty (by decide) (by decide)).1⟩

/-- Claim C10: no public operation mutates the session's soft limits or
device maxima: for every session state, operation and transport response,
the state component returned by `HCS.run` is exactly the input state —
the source methods contain no assignment to `limit_voltage`,
`limit_current`, `max_voltage` or `max_current`. -/
theorem C10_frame (s : HCSState) (op : Op) (raw : Bytes) :
    (HCS.run s op raw).1 = s := by
  cases op <;> rfl
